import Mathlib

/-!
Verification of the blobsender repository against its specification.

Part 1 models the on-chain settlement contract `src/contracts/src/Escrow.sol`
as a pure state-transition system.  Machine integers are modelled as `Nat`
with explicit `% 2^w` at the points where Solidity narrows a value
(`uint128(msg.value)`, `uint64(block.timestamp)`, and the `unchecked`
64-bit addition in `withdraw`).  A call that reverts is an `Except.error`;
by EVM semantics a revert discards every state change of the call, so an
`Except.error` result carries no state.  The success of the low-level
external value transfer (`addr.call{value: v}("")`) depends on the
recipient and on gas, so it enters the model as an explicit boolean
parameter `transferOk`; `require(success)` reverting on a failed transfer
is the `Except.error .TransferFailed` branch.  Addresses and bytes32
identifiers are abstracted to `Nat`, with `0` the zero address.
-/

namespace Escrow

/-- The per-record storage struct `EscrowData` of Escrow.sol
(`uint128 value; uint64 timestamp; bool fulfilled; address sender`). -/
structure EscrowData where
  value : Nat
  timestamp : Nat
  fulfilled : Bool
  sender : Nat
deriving DecidableEq, Repr

/-- The zeroed record: what `escrows[id]` reads before any write and after
`delete escrows[id]`. -/
def EscrowData.empty : EscrowData := ⟨0, 0, false, 0⟩

/-- Contract storage: the `escrows` mapping (total, defaulting to zeroed
records), the `owner` and `worker` roles, and the contract's own balance. -/
structure State where
  escrows : Nat → EscrowData
  owner : Nat
  worker : Nat
  balance : Nat

/-- The contract's custom errors, plus `TransferFailed` standing for the
bare `require(success)` revert after a failed external transfer. -/
inductive Err where
  | AlreadyExists
  | NotWorker
  | NotOwner
  | NotSender
  | AlreadyFulfilled
  | TooEarly
  | TransferFailed
deriving DecidableEq, Repr

/-- An outgoing value transfer `(recipient, amount)` performed by a call. -/
structure Transfer where
  toAddr : Nat
  amount : Nat
deriving DecidableEq, Repr

def U64 : Nat := 2 ^ 64
def U128 : Nat := 2 ^ 128

/-- `uint64 constant WITHDRAW_DELAY = 1 hours;` -/
def WITHDRAW_DELAY : Nat := 3600

/-- `createEscrow(bytes32 _id)`, payable.  Reverts `AlreadyExists` when the
slot is occupied (`e.sender != 0`) or `msg.value == 0`; otherwise writes
`sender`, `value = uint128(msg.value)` (a narrowing cast, hence `% 2^128`)
and `timestamp = uint64(block.timestamp)` (`% 2^64`).  The `fulfilled`
field is not written.  Being payable, a successful call adds `msg.value`
to the contract balance. -/
def createEscrow (s : State) (msgSender msgValue blockTimestamp id : Nat) :
    Except Err State :=
  let e := s.escrows id
  if e.sender ≠ 0 ∨ msgValue = 0 then .error .AlreadyExists
  else .ok { s with
    escrows := fun j => if j = id then
        { value := msgValue % U128
          timestamp := blockTimestamp % U64
          fulfilled := e.fulfilled
          sender := msgSender }
      else s.escrows j,
    balance := s.balance + msgValue }

/-- `fulfill(bytes32 _id)`.  Only `worker` may call (`NotWorker`); a missing
or already-fulfilled record reverts `AlreadyFulfilled`; otherwise the
record is flipped to `fulfilled = true` and only then is `e.value` sent to
the worker; a failed send reverts the whole call. -/
def fulfill (s : State) (msgSender : Nat) (transferOk : Bool) (id : Nat) :
    Except Err (State × Transfer) :=
  if msgSender ≠ s.worker then .error .NotWorker
  else
    let e := s.escrows id
    if e.sender = 0 ∨ e.fulfilled then .error .AlreadyFulfilled
    else
      -- state visible to the external call: the flag is already set
      let s' : State := { s with
        escrows := fun j => if j = id then { e with fulfilled := true }
          else s.escrows j }
      if transferOk then .ok ({ s' with balance := s'.balance - e.value },
        ⟨s.worker, e.value⟩)
      else .error .TransferFailed

/-- `withdraw(bytes32 _id)`.  Only the record's `sender` may call
(`NotSender`, also hit when the record is absent); a fulfilled record
reverts `AlreadyFulfilled`; the timing guard is
`block.timestamp < e.timestamp + WITHDRAW_DELAY` computed inside an
`unchecked` block, so the 64-bit sum wraps: `(timestamp + 3600) % 2^64`.
On success the record is deleted before the refund transfer is made. -/
def withdraw (s : State) (msgSender blockTimestamp : Nat) (transferOk : Bool)
    (id : Nat) : Except Err (State × Transfer) :=
  let e := s.escrows id
  if msgSender ≠ e.sender ∨ e.sender = 0 then .error .NotSender
  else if e.fulfilled then .error .AlreadyFulfilled
  else if blockTimestamp < (e.timestamp + WITHDRAW_DELAY) % U64 then
    .error .TooEarly
  else
    -- state visible to the external call: the record is already deleted
    let s' : State := { s with
      escrows := fun j => if j = id then EscrowData.empty else s.escrows j }
    if transferOk then .ok ({ s' with balance := s'.balance - e.value },
      ⟨msgSender, e.value⟩)
    else .error .TransferFailed

/-- `emergencyWithdraw()`: owner-only sweep of the whole contract balance;
touches no other storage. -/
def emergencyWithdraw (s : State) (msgSender : Nat) (transferOk : Bool) :
    Except Err (State × Transfer) :=
  if msgSender ≠ s.owner then .error .NotOwner
  else if transferOk then .ok ({ s with balance := 0 }, ⟨s.owner, s.balance⟩)
  else .error .TransferFailed

/-- `setWorker(address)`: owner-only role rotation. -/
def setWorker (s : State) (msgSender newWorker : Nat) : Except Err State :=
  if msgSender ≠ s.owner then .error .NotOwner
  else .ok { s with worker := newWorker }

/-- `setOwner(address)`: owner-only role rotation. -/
def setOwner (s : State) (msgSender newOwner : Nat) : Except Err State :=
  if msgSender ≠ s.owner then .error .NotOwner
  else .ok { s with owner := newOwner }

/-- An empty deployment used by concrete witnesses: owner 1, worker 2. -/
def mtState : State :=
  { escrows := fun _ => EscrowData.empty, owner := 1, worker := 2, balance := 0 }

/-- A deployment holding one funded, unfulfilled record under id 7
(value 1000, created at time 50, payer 3). -/
def fundedState : State :=
  { escrows := fun j => if j = 7 then ⟨1000, 50, false, 3⟩ else EscrowData.empty
    owner := 1, worker := 2, balance := 1000 }

/-- Like `fundedState` but with the record already fulfilled. -/
def fulfilledState : State :=
  { escrows := fun j => if j = 7 then ⟨1000, 50, true, 3⟩ else EscrowData.empty
    owner := 1, worker := 2, balance := 0 }

end Escrow

namespace Escrow

/-- C3: for a funded escrow record, `fulfill` by any caller other than the
configured worker fails with `NotWorker`; called by the worker it succeeds
exactly once, setting `fulfilled = true` (before the transfer is made) and
transferring exactly the record's `value` to the worker, a failed transfer
reverting the whole call; a subsequent `fulfill` on the same id, and
`fulfill` by the worker on a non-existent record, fail with
`AlreadyFulfilled`. -/
theorem fulfill_spec (s s0 : State) (id caller : Nat)
    (hs : (s.escrows id).sender ≠ 0) (hnf : (s.escrows id).fulfilled = false)
    (h0 : (s0.escrows id).sender = 0) :
    (∀ tOk, caller ≠ s.worker → fulfill s caller tOk id = .error .NotWorker)
    ∧ (∃ s', fulfill s s.worker true id
          = .ok (s', ⟨s.worker, (s.escrows id).value⟩)
        ∧ (s'.escrows id).fulfilled = true
        ∧ (s'.escrows id).sender = (s.escrows id).sender
        ∧ (s'.escrows id).value = (s.escrows id).value
        ∧ (∀ tOk, fulfill s' s.worker tOk id = .error .AlreadyFulfilled))
    ∧ fulfill s s.worker false id = .error .TransferFailed
    ∧ (∀ tOk, fulfill s0 s0.worker tOk id = .error .AlreadyFulfilled) := by
  refine ⟨?_, ?_, ?_, ?_⟩
  · intro tOk h
    simp [fulfill, h]
  · refine ⟨{ s with
      escrows := fun j => if j = id then { s.escrows id with fulfilled := true }
        else s.escrows j,
      balance := s.balance - (s.escrows id).value }, ?_, ?_, ?_, ?_, ?_⟩
    · simp [fulfill, hs, hnf]
    · simp
    · simp
    · simp
    · intro tOk
      simp [fulfill]
  · simp [fulfill, hs, hnf]
  · intro tOk
    simp [fulfill, h0]

/-- Closed witness for `fulfill_spec` at a concrete funded record. -/
theorem fulfill_spec_witness :
    fulfill fundedState 5 true 7 = .error .NotWorker
    ∧ (∃ s', fulfill fundedState fundedState.worker true 7
          = .ok (s', ⟨fundedState.worker, (fundedState.escrows 7).value⟩)
        ∧ (s'.escrows 7).fulfilled = true
        ∧ (∀ tOk, fulfill s' fundedState.worker tOk 7 = .error .AlreadyFulfilled))
    ∧ fulfill mtState mtState.worker true 7 = .error .AlreadyFulfilled := by
  have h := fulfill_spec fundedState mtState 7 5 (by decide) (by decide) (by decide)
  obtain ⟨h1, ⟨s', e1, e2, _, _, e5⟩, _, h4⟩ := h
  exact ⟨h1 true (by decide), ⟨s', e1, e2, e5⟩, h4 true⟩

/-- C4 (amended): for a funded, unfulfilled record, `withdraw` by a caller
other than the record's payer fails with `NotSender`; by the payer of an
already-fulfilled record it fails with `AlreadyFulfilled`; by the payer it
fails with `TooEarly` at any time strictly earlier than
`createdAt + 1 hour`, provided that sum does not overflow 64 bits (the
contract computes the deadline with an `unchecked` wrapping 64-bit
addition); and at or after the (wrapped) deadline it succeeds, deleting
the record (returning it to the empty record, before the refund transfer)
and transferring exactly the record's value back to the payer. -/
theorem withdraw_spec (s sF : State) (id caller t : Nat) (tOk : Bool)
    (hs : (s.escrows id).sender ≠ 0) (hnf : (s.escrows id).fulfilled = false)
    (hFs : (sF.escrows id).sender ≠ 0) (hFf : (sF.escrows id).fulfilled = true) :
    (caller ≠ (s.escrows id).sender → withdraw s caller t tOk id = .error .NotSender)
    ∧ withdraw sF (sF.escrows id).sender t tOk id = .error .AlreadyFulfilled
    ∧ ((s.escrows id).timestamp + WITHDRAW_DELAY < U64 →
        t < (s.escrows id).timestamp + WITHDRAW_DELAY →
        withdraw s (s.escrows id).sender t tOk id = .error .TooEarly)
    ∧ (((s.escrows id).timestamp + WITHDRAW_DELAY) % U64 ≤ t →
        ∃ s', withdraw s (s.escrows id).sender t true id
            = .ok (s', ⟨(s.escrows id).sender, (s.escrows id).value⟩)
          ∧ s'.escrows id = EscrowData.empty) := by
  refine ⟨?_, ?_, ?_, ?_⟩
  · intro h
    simp [withdraw, h]
  · simp [withdraw, hFs, hFf]
  · intro hlt ht
    have hmod : ((s.escrows id).timestamp + WITHDRAW_DELAY) % U64
        = (s.escrows id).timestamp + WITHDRAW_DELAY := Nat.mod_eq_of_lt hlt
    simp [withdraw, hs, hnf, hmod, ht]
  · intro hle
    refine ⟨{ s with
      escrows := fun j => if j = id then EscrowData.empty else s.escrows j,
      balance := s.balance - (s.escrows id).value }, ?_, ?_⟩
    · simp [withdraw, hs, hnf, Nat.not_lt.mpr hle]
    · simp

/-- Closed witness for `withdraw_spec` at a concrete funded record
(created at time 50, so the deadline 3650 does not wrap). -/
theorem withdraw_spec_witness :
    withdraw fundedState 9 100 true 7 = .error .NotSender
    ∧ withdraw fulfilledState 3 100 true 7 = .error .AlreadyFulfilled
    ∧ withdraw fundedState 3 100 true 7 = .error .TooEarly
    ∧ ∃ s', withdraw fundedState 3 3650 true 7 = .ok (s', ⟨3, 1000⟩)
        ∧ s'.escrows 7 = EscrowData.empty := by
  have h := withdraw_spec fundedState fulfilledState 7 9 100 true
    (by decide) (by decide) (by decide) (by decide)
  have h2 := withdraw_spec fundedState fulfilledState 7 9 3650 true
    (by decide) (by decide) (by decide) (by decide)
  exact ⟨h.1 (by decide), h.2.1, h.2.2.1 (by decide) (by decide),
    h2.2.2.2 (by decide)⟩

/-- C4 counterexample to the claim as stated: a record funded at
`block.timestamp = 2^64 - 1` (reached through `createEscrow` itself) can be
withdrawn by its payer at that same instant, which is strictly earlier
than `createdAt + 1 hour`, because the `unchecked` 64-bit deadline
`createdAt + 3600` wraps around to `3599`.  The claim says this withdraw
must fail with `TooEarly`; it succeeds. -/
theorem withdraw_early_wrap_counterexample :
    ∃ s1, createEscrow mtState 3 5 (U64 - 1) 7 = .ok s1
      ∧ (s1.escrows 7).sender = 3
      ∧ (s1.escrows 7).fulfilled = false
      ∧ (s1.escrows 7).timestamp = U64 - 1
      ∧ U64 - 1 < (s1.escrows 7).timestamp + WITHDRAW_DELAY
      ∧ ∃ p, withdraw s1 3 (U64 - 1) true 7 = .ok p := by
  refine ⟨_, rfl, ?_, ?_, ?_, ?_, ⟨_, rfl⟩⟩ <;> decide

/-- C8: `createEscrow` does not reject a `msg.value` that does not fit the
128-bit `value` field: at `msg.value = 2^128` the call succeeds and stores
the silently truncated value `2^128 % 2^128 = 0`, producing a record with
`sender ≠ 0` but `value = 0` (which also breaks the data-model invariant
that a funded record has positive value). -/
theorem createEscrow_truncates_large_value :
    (2 : Nat) ^ 128 ≠ 0
    ∧ ∃ s1, createEscrow mtState 3 (2 ^ 128) 0 7 = .ok s1
        ∧ (s1.escrows 7).sender = 3
        ∧ (s1.escrows 7).value = 0 := by
  refine ⟨by decide, _, rfl, ?_, ?_⟩ <;> decide

/-- C10: `emergencyWithdraw` called by the owner transfers the contract's
entire balance to the owner and leaves every other piece of contract
state unchanged: the whole `escrows` mapping and the `owner` and `worker`
role addresses are identical before and after; only the balance drops to
zero, so funded records remain present and unfulfilled with no balance
backing them. -/
theorem emergencyWithdraw_frame (s : State) :
    ∃ s', emergencyWithdraw s s.owner true = .ok (s', ⟨s.owner, s.balance⟩)
      ∧ s'.escrows = s.escrows
      ∧ s'.owner = s.owner
      ∧ s'.worker = s.worker
      ∧ s'.balance = 0 := by
  refine ⟨{ s with balance := 0 }, ?_, rfl, rfl, rfl, rfl⟩
  simp [emergencyWithdraw]

end Escrow

/-!
Part 2 models the off-chain orchestrator.

`PriceCache` embeds `src/frontend/app/api/lib/price-cache.ts`: the quotes
object of the cache file is a JS `Record<string, PriceQuote>`, modelled as
a map `String → Option PriceQuote`; `Date.now()` is an explicit `now`
parameter.  JS computes ages with real subtraction while the model uses
truncated `Nat` subtraction; for the only uses `now - t > K` with `K ≥ 0`
the two agree (a negative JS age and a truncated-to-zero age both fail
the `>` test).

`ProcessingEscrows` embeds `src/frontend/app/api/lib/processing-escrows.ts`:
the module-level `Map` is an insertion-ordered association list with
unique keys; `Map.delete` is modelled as filtering the key out.
-/

namespace PriceCache

/-- One stored quote (`priceWei` string, `timestamp` from Date.now). -/
structure PriceQuote where
  priceWei : String
  timestamp : Nat
deriving DecidableEq, Repr

/-- The cache file content: quotes record plus `lastCleanup`. -/
structure CacheFile where
  quotes : String → Option PriceQuote
  lastCleanup : Nat

def QUOTE_EXPIRY_MS : Nat := 5 * 60 * 1000
def CLEANUP_INTERVAL_MS : Nat := 60 * 1000

/-- `cleanupExpiredQuotes`: when the last cleanup is older than the
cleanup interval, drop every quote whose age exceeds the TTL and stamp
`lastCleanup = now`; otherwise return the cache unchanged. -/
def cleanupExpiredQuotes (now : Nat) (c : CacheFile) : CacheFile :=
  if now - c.lastCleanup > CLEANUP_INTERVAL_MS then
    { quotes := fun k => match c.quotes k with
        | some q => if now - q.timestamp > QUOTE_EXPIRY_MS then none else some q
        | none => none
      lastCleanup := now }
  else c

/-- `getPriceQuote`: run the cleanup pass, look the id up, and re-check the
age of the found quote (deleting it when expired).  First component is the
returned value, second the cache file as persisted by the call (the
success path performs no write, so the original file is kept). -/
def getPriceQuote (c : CacheFile) (now : Nat) (id : String) :
    Option String × CacheFile :=
  let c1 := cleanupExpiredQuotes now c
  match c1.quotes id with
  | none => (none, c1)
  | some q =>
    if now - q.timestamp > QUOTE_EXPIRY_MS then
      (none, { c1 with quotes := fun k => if k = id then none else c1.quotes k })
    else (some q.priceWei, c)

/-- A concrete cache with a single quote issued at t = 1000. -/
def sampleCache : CacheFile :=
  { quotes := fun k => if k = "q1" then some ⟨"77000", 1000⟩ else none
    lastCleanup := 0 }

end PriceCache

namespace ProcessingEscrows

/-- The module-level `processingEscrows : Map<string, ProcessingEscrow>`;
the stored `escrowId` field always equals the key, so an entry is the pair
(escrowId, startTime). -/
abbrev LockMap := List (String × Nat)

def PROCESSING_TIMEOUT_MS : Nat := 5 * 60 * 1000

/-- `cleanupExpired`: delete every entry older than the processing
timeout (keep those with `now - startTime ≤ timeout`). -/
def cleanupExpired (now : Nat) (m : LockMap) : LockMap :=
  m.filter (fun e => decide (now - e.2 ≤ PROCESSING_TIMEOUT_MS))

/-- `Map.has` on the lock map. -/
def hasId (m : LockMap) (id : String) : Bool :=
  m.any (fun e => e.1 == id)

/-- `isEscrowProcessing`: cleanup, then `has`.  The cleanup mutates the
shared map, so the mutated map is returned alongside the answer. -/
def isEscrowProcessing (now : Nat) (m : LockMap) (id : String) :
    Bool × LockMap :=
  let m' := cleanupExpired now m
  (hasId m' id, m')

/-- `Map.set`: replace the entry in place when the key exists, else append. -/
def mapSet (m : LockMap) (id : String) (t : Nat) : LockMap :=
  if hasId m id then m.map (fun e => if e.1 == id then (id, t) else e)
  else m ++ [(id, t)]

/-- `markEscrowProcessing`: cleanup, then set (escrowId, startTime = now). -/
def markEscrowProcessing (now : Nat) (m : LockMap) (id : String) : LockMap :=
  mapSet (cleanupExpired now m) id now

/-- `markEscrowComplete`: `Map.delete` of the id. -/
def markEscrowComplete (m : LockMap) (id : String) : LockMap :=
  m.filter (fun e => !(e.1 == id))

theorem hasId_markEscrowComplete (m : LockMap) (id : String) :
    hasId (markEscrowComplete m id) id = false := by
  induction m with
  | nil => rfl
  | cons e rest ih =>
    unfold markEscrowComplete hasId at *
    cases h : (e.1 == id) with
    | true => simp [List.filter_cons, h, ih]
    | false => simp [List.filter_cons, h, ih]

end ProcessingEscrows

/-!
Part 3 models the fulfillment orchestrator: the verification pipeline of
`src/unnamed/part_011` (`verifyEscrowSecurity` and friends) and the POST
handler of `src/frontend/app/api/create-blob/route.ts`.

The handler is a pure function of (a) the lock map and (b) an `Env`
record carrying, per effectful call site, the outcome the outside world
gives that call: the parsed request body (or a parse throw), the result
of each `contract.escrows` read (`verifyEscrowSecurity` reads the record
twice — once in `verifyEscrowExists` and once in `verifyEscrowBalance` —
so each verification site carries a pair of read outcomes), whether each
`waitForUserEscrowTransaction` call confirmed or threw, the price-cache
lookup, and the blob-submission outcome.  Log output, link fields and
error-message strings are not modelled; the response model keeps exactly
the fields the claims talk about (`canWithdraw`, `expectedValue`,
`actualValue`, success/error kind).  `buildSuccessResponse`'s cache write
and `buildErrorResponse`'s config read are treated as non-throwing.
BigInt values are `Nat`; addresses and ids stay the strings the route
manipulates.
-/

namespace Orch

/-- Escrow record decoded from an `escrows(id)` view call (part_011
converts value and timestamp via BigInt; sender is the RPC's address
string). -/
structure EscrowDataJS where
  value : Nat
  timestamp : Nat
  fulfilled : Bool
  sender : String
deriving DecidableEq, Repr

/-- One `contract.escrows(escrowId)` read: decoded data, or a throw. -/
abbrev ReadOutcome := Except Unit EscrowDataJS

/-- The two reads a single `verifyEscrowSecurity` call performs. -/
abbrev SecCall := ReadOutcome × ReadOutcome

def ZERO_ADDRESS : String := "0x0000000000000000000000000000000000000000"

/-- JS `String.prototype.toLowerCase` on the ASCII addresses in play
(character-by-character lower-casing, written over the character list so
that it evaluates by kernel reduction). -/
def toLower (s : String) : String := ⟨s.data.map Char.toLower⟩

/-- Why a verification step failed (part_011's error strings as tags). -/
inductive VerifyError where
  | readFailed | notFound | senderMismatch | alreadyFulfilled | zeroValue
  | balanceReadFailed | valueMismatch
deriving DecidableEq, Repr

/-- Result record of `verifyEscrowSecurity`. -/
structure SecResult where
  valid : Bool
  escrowData : Option EscrowDataJS
  errTag : Option VerifyError
  actualValue : Option Nat
deriving DecidableEq, Repr

/-- `verifyEscrowSender`'s test: lower-cased sender equality. -/
def verifyEscrowSenderOk (d : EscrowDataJS) (expected : String) : Bool :=
  toLower d.sender == toLower expected

/-- `verifyEscrowSecurity` (part_011, lines 138-206): the five-step
pipeline.  Step 1 (`verifyEscrowExists`) uses the first read, catching a
throw into an invalid result; steps 2-4 check sender, fulfilled and
nonzero value on the decoded data; step 5 (`verifyEscrowBalance`)
re-reads the record and compares its value against `expectedValue`,
again catching a throw into an invalid result. -/
def verifyEscrowSecurity (r1 r2 : ReadOutcome) (userAddress : String)
    (expectedValue : Nat) : SecResult :=
  match r1 with
  | .error _ => ⟨false, none, some .readFailed, none⟩
  | .ok d =>
    if d.sender = ZERO_ADDRESS then ⟨false, none, some .notFound, none⟩
    else if verifyEscrowSenderOk d userAddress = false then
      ⟨false, some d, some .senderMismatch, none⟩
    else if d.fulfilled then ⟨false, some d, some .alreadyFulfilled, none⟩
    else if d.value = 0 then ⟨false, some d, some .zeroValue, none⟩
    else
      match r2 with
      | .error _ => ⟨false, some d, some .balanceReadFailed, none⟩
      | .ok d2 =>
        if d2.value ≠ expectedValue then
          ⟨false, some d, some .valueMismatch, some d2.value⟩
        else ⟨true, some d, none, none⟩

/-- `escrowData?.fulfilled` with undefined falsy. -/
def fulfilledOf (o : Option EscrowDataJS) : Bool := (o.map (·.fulfilled)).getD false

/-- `escrowData.value` as the optional `actualValue` response field. -/
def valueOf (o : Option EscrowDataJS) : Option Nat := o.map (·.value)

/-- The request body after `request.json()`; a missing/empty (falsy)
field is the empty string. -/
structure Body where
  text : String
  userAddress : String
  escrowTxHash : String
  escrowId : String
  quoteId : String
deriving DecidableEq, Repr

def isHexDigit (c : Char) : Bool :=
  (decide ('0' ≤ c) && decide (c ≤ '9'))
  || (decide ('a' ≤ c) && decide (c ≤ 'f'))
  || (decide ('A' ≤ c) && decide (c ≤ 'F'))

/-- The `/^0x[a-fA-F0-9]{n}$/` tests of validation.ts (n hex digits):
length n + 2, leading "0x", all remaining characters hex digits (written
over the character list so that it evaluates by kernel reduction). -/
def isHexBytes (n : Nat) (s : String) : Bool :=
  s.length == n + 2 && s.data.take 2 == ['0', 'x']
  && (s.data.drop 2).all isHexDigit

def MAX_TEXT_LENGTH : Nat := 1000

/-- `validateRequestInput`: nonempty text within the length bound, a
40-hex-digit address, and 64-hex-digit tx hash and escrow id.  quoteId is
not validated. -/
def validateRequestInput (b : Body) : Bool :=
  (b.text != "") && decide (b.text.length ≤ MAX_TEXT_LENGTH)
  && isHexBytes 40 b.userAddress && isHexBytes 64 b.escrowTxHash
  && isHexBytes 64 b.escrowId

/-- `createAndSendBlob` outcome classes: a mempool-duplicate signal is
reconciled in place, every other failure is rethrown. -/
inductive BlobErr where
  | alreadyKnown
  | other
deriving DecidableEq, Repr

/-- Which error message a `buildErrorResponse` carries. -/
inductive ErrKind where
  | validationWithEscrow
  | initFailed
  | duplicateProcessing
  | missingQuote
  | invalidQuote
  | security (e : VerifyError)
  | mempoolPending
  | unexpected
deriving DecidableEq, Repr

/-- The response as far as the claims observe it. -/
inductive Response where
  | plain (status : Nat)
  | err (kind : ErrKind) (canWithdraw : Bool)
        (expectedValue : Option Nat) (actualValue : Option Nat)
  | success (escrowId : String) (blobTxHash : String)
deriving DecidableEq, Repr

/-- `'0x' + '0'.repeat(64)`, the placeholder tx hash of idempotent
success responses. -/
def placeholderTx : String :=
  "0x0000000000000000000000000000000000000000000000000000000000000000"

/-- Per-call-site outcomes the outside world hands one handler run. -/
structure Env where
  now : Nat := 0
  body : Option Body := none
  valCheckThrows : Bool := true
  valSec : SecCall := (.error (), .error ())
  initOk : Bool := true
  fbThrows : Bool := true
  fbSec : SecCall := (.error (), .error ())
  dupWaitOk : Bool := false
  dupSec : SecCall := (.error (), .error ())
  quoteResult : Option Nat := none
  mqWaitOk : Bool := false
  mqSec : SecCall := (.error (), .error ())
  iqWaitOk : Bool := false
  iqSec : SecCall := (.error (), .error ())
  step1Ok : Bool := true
  initialSec : SecCall := (.error (), .error ())
  securitySec : SecCall := (.error (), .error ())
  blobOutcome : Except BlobErr String := .error .other
  mempoolSecs : List SecCall := []
  errCheckThrows : Bool := true
  errSec : SecCall := (.error (), .error ())

/-- route.ts 394-459: on a missing or unknown/expired quote the handler
probes the chain (funding-tx wait, then `verifyEscrowSecurity` with
expectedValue `0n`) and answers canWithdraw=true only when that probe
returns valid with data; a throw, or an invalid probe result, falls
through to a canWithdraw=false response. -/
def quoteFailResp (kind : ErrKind) (waitOk : Bool) (sec : SecCall)
    (user : String) : Response :=
  let ec := verifyEscrowSecurity sec.1 sec.2 user 0
  if waitOk && ec.valid && ec.escrowData.isSome then
    .err kind true none (valueOf ec.escrowData)
  else .err kind false none none

/-- route.ts 344-384: the duplicate-request path. -/
def dupResp (env : Env) (b : Body) : Response :=
  let ec := verifyEscrowSecurity env.dupSec.1 env.dupSec.2 b.userAddress 0
  if env.dupWaitOk && ec.valid && ec.escrowData.isSome then
    if fulfilledOf ec.escrowData then .success b.escrowId placeholderTx
    else .err .duplicateProcessing true none (valueOf ec.escrowData)
  else .err .duplicateProcessing false none none

/-- route.ts 305-341: provider/contract initialization failed; the
fallback probe only changes which message/actualValue is carried —
canWithdraw is true on every branch. -/
def initFailResp (env : Env) (b : Body) : Response :=
  if env.fbThrows then .err .initFailed true none none
  else
    let ec := verifyEscrowSecurity env.fbSec.1 env.fbSec.2 b.userAddress 0
    if ec.valid && ec.escrowData.isSome then
      .err .initFailed true none (valueOf ec.escrowData)
    else .err .initFailed true none none

/-- route.ts 531-563: the already-known reconciliation loop; one list
entry per 3-second poll of the escrow, the window elapsing when the list
is exhausted. -/
def mempoolLoop (b : Body) (p : Nat) :
    List SecCall → Except (Option Nat) Response
  | [] => .ok (.err .mempoolPending true (some p) none)
  | c :: rest =>
    let ec := verifyEscrowSecurity c.1 c.2 b.userAddress p
    if ec.valid && fulfilledOf ec.escrowData then
      .ok (.success b.escrowId placeholderTx)
    else mempoolLoop b p rest

/-- The body of the inner try (route.ts 389-577).  `.error e` is an
exception travelling to the outer catch, carrying the value the
`expectedValue` variable has at the throw; the second component counts
`createAndSendBlob` attempts (settlement submissions). -/
def innerRegion (env : Env) (b : Body) : Except (Option Nat) Response × Nat :=
  if b.quoteId = "" then
    (.ok (quoteFailResp .missingQuote env.mqWaitOk env.mqSec b.userAddress), 0)
  else
    match env.quoteResult with
    | none =>
      (.ok (quoteFailResp .invalidQuote env.iqWaitOk env.iqSec b.userAddress), 0)
    | some p =>
      if env.step1Ok = false then (.error (some p), 0)
      else
        let ic := verifyEscrowSecurity env.initialSec.1 env.initialSec.2
          b.userAddress p
        if ic.valid && fulfilledOf ic.escrowData then
          (.ok (.success b.escrowId placeholderTx), 0)
        else
          let sr := verifyEscrowSecurity env.securitySec.1 env.securitySec.2
            b.userAddress p
          if sr.valid = false then
            (.ok (.err (.security (sr.errTag.getD .readFailed)) true
              (some p) sr.actualValue), 0)
          else
            match env.blobOutcome with
            | .ok tx => (.ok (.success b.escrowId tx), 1)
            | .error .alreadyKnown => (mempoolLoop b p env.mempoolSecs, 1)
            | .error .other => (.error (some p), 1)

/-- route.ts 585-647: the outer catch.  With full escrow info it retries
the escrow check (expectedValue, or 0n when unset): a valid result with
data gives canWithdraw = !fulfilled with the read value; an invalid
result gives canWithdraw=false; a throw of the check gives
canWithdraw=true.  Without full escrow info, canWithdraw=false. -/
def outerCatch (env : Env) (b : Body) (escrowId escrowTxHash : String)
    (expVal : Option Nat) : Response :=
  if escrowId != "unknown" && escrowTxHash != "0x" && b.userAddress != "0x" then
    if env.errCheckThrows then .err .unexpected true expVal none
    else
      let ec := verifyEscrowSecurity env.errSec.1 env.errSec.2 b.userAddress
        (expVal.getD 0)
      if ec.valid && ec.escrowData.isSome then
        .err .unexpected (!(fulfilledOf ec.escrowData)) expVal
          (valueOf ec.escrowData)
      else .err .unexpected false expVal none
  else .err .unexpected false expVal none

/-- What one handler run produced: the response, the lock map it leaves
behind, how many times it called `markEscrowComplete`, and how many
settlement submissions it attempted. -/
structure HandlerResult where
  response : Response
  locks : ProcessingEscrows.LockMap
  completeCalls : Nat
  blobSubmissions : Nat
deriving DecidableEq, Repr

/-- The POST handler (route.ts 189-655).  Control flow, in order: JSON
parse (a throw leaves escrowId = "unknown", so the info-bearing recovery
branch is skipped and a bare 400 is returned); input validation with its
escrow-info recovery branch; provider initialization; the
`isEscrowProcessing` duplicate check; `markEscrowProcessing`; the inner
try whose finally always calls `markEscrowComplete`; the outer catch for
exceptions; and the outer finally, which calls `markEscrowComplete`
again whenever escrowId ≠ "unknown". -/
def POST (env : Env) (locks : ProcessingEscrows.LockMap) : HandlerResult :=
  match env.body with
  | none => ⟨.plain 400, locks, 0, 0⟩
  | some b =>
    let escrowId := if b.escrowId != "" then b.escrowId else "unknown"
    let escrowTxHash := if b.escrowTxHash != "" then b.escrowTxHash else "0x"
    if validateRequestInput b = false then
      let resp :=
        if escrowId != "unknown" && escrowTxHash != "0x" then
          if env.valCheckThrows then Response.plain 400
          else
            let ec := verifyEscrowSecurity env.valSec.1 env.valSec.2
              b.userAddress 0
            if ec.valid && ec.escrowData.isSome then
              .err .validationWithEscrow true none (valueOf ec.escrowData)
            else .plain 400
        else .plain 400
      if escrowId != "unknown" then
        ⟨resp, ProcessingEscrows.markEscrowComplete locks escrowId, 1, 0⟩
      else ⟨resp, locks, 0, 0⟩
    else if env.initOk = false then
      let resp := initFailResp env b
      if escrowId != "unknown" then
        ⟨resp, ProcessingEscrows.markEscrowComplete locks escrowId, 1, 0⟩
      else ⟨resp, locks, 0, 0⟩
    else
      let pr := ProcessingEscrows.isEscrowProcessing env.now locks escrowId
      if pr.1 then
        let resp := dupResp env b
        if escrowId != "unknown" then
          ⟨resp, ProcessingEscrows.markEscrowComplete pr.2 escrowId, 1, 0⟩
        else ⟨resp, pr.2, 0, 0⟩
      else
        let locks2 := ProcessingEscrows.markEscrowProcessing env.now pr.2 escrowId
        let inner := innerRegion env b
        let locks3 := ProcessingEscrows.markEscrowComplete locks2 escrowId
        let resp := match inner.1 with
          | .ok r => r
          | .error expVal => outerCatch env b escrowId escrowTxHash expVal
        if escrowId != "unknown" then
          ⟨resp, ProcessingEscrows.markEscrowComplete locks3 escrowId, 2, inner.2⟩
        else ⟨resp, locks3, 1, inner.2⟩

end Orch

namespace PriceCache

/-- C9: for a stored quote, `getPriceQuote` returns `none` when the
quote's age exceeds the 5-minute TTL at lookup time — exactly what it
returns for a quoteId that was never stored — and returns the stored
`priceWei` unchanged when the age is within the TTL. -/
theorem getPriceQuote_ttl (c : CacheFile) (now : Nat) (id : String)
    (q : PriceQuote) (hfound : c.quotes id = some q) :
    (now - q.timestamp > QUOTE_EXPIRY_MS →
        (getPriceQuote c now id).1 = none
        ∧ ∀ id2, c.quotes id2 = none → (getPriceQuote c now id2).1 = none)
    ∧ (now - q.timestamp ≤ QUOTE_EXPIRY_MS →
        (getPriceQuote c now id).1 = some q.priceWei) := by
  constructor
  · intro hexp
    constructor
    · unfold getPriceQuote cleanupExpiredQuotes
      by_cases hcl : now - c.lastCleanup > CLEANUP_INTERVAL_MS
      · simp [hcl, hfound, hexp]
      · simp [hcl, hfound, hexp]
    · intro id2 h2
      unfold getPriceQuote cleanupExpiredQuotes
      by_cases hcl : now - c.lastCleanup > CLEANUP_INTERVAL_MS
      · simp [hcl, h2]
      · simp [hcl, h2]
  · intro hfr
    have hnot : ¬ (now - q.timestamp > QUOTE_EXPIRY_MS) := Nat.not_lt.mpr hfr
    unfold getPriceQuote cleanupExpiredQuotes
    by_cases hcl : now - c.lastCleanup > CLEANUP_INTERVAL_MS
    · simp [hcl, hfound, hnot]
    · simp [hcl, hfound, hnot]

/-- Closed witness for `getPriceQuote_ttl`: the sample quote issued at
t = 1000 is gone at t = 301001 (age 300001 ms) and still served at
t = 300999 (age 299999 ms). -/
theorem getPriceQuote_ttl_witness :
    (getPriceQuote sampleCache 301001 "q1").1 = none
    ∧ (getPriceQuote sampleCache 300999 "q1").1 = some "77000" := by
  have h1 := getPriceQuote_ttl sampleCache 301001 "q1" ⟨"77000", 1000⟩ (by decide)
  have h2 := getPriceQuote_ttl sampleCache 300999 "q1" ⟨"77000", 1000⟩ (by decide)
  exact ⟨(h1.1 (by decide)).1, h2.2 (by decide)⟩

end PriceCache

namespace Orch

theorem isHexBytes_len (n : Nat) (s : String) (h : isHexBytes n s = true) :
    s.length = n + 2 := by
  unfold isHexBytes at h
  simp only [Bool.and_eq_true, beq_iff_eq] at h
  exact h.1.1

theorem validated_body_facts (b : Body) (hv : validateRequestInput b = true) :
    b.escrowId ≠ "" ∧ b.escrowId ≠ "unknown" ∧ b.escrowTxHash ≠ "" := by
  unfold validateRequestInput at hv
  simp only [Bool.and_eq_true] at hv
  obtain ⟨⟨⟨⟨-, -⟩, -⟩, htx⟩, hid⟩ := hv
  have hlid := isHexBytes_len 64 b.escrowId hid
  have hltx := isHexBytes_len 64 b.escrowTxHash htx
  refine ⟨?_, ?_, ?_⟩
  · intro hh; rw [hh] at hlid; exact absurd hlid (by decide)
  · intro hh; rw [hh] at hlid; exact absurd hlid (by decide)
  · intro hh; rw [hh] at hltx; exact absurd hltx (by decide)

/-- On a validated, initialized, uncontended request the handler takes the
lock-acquiring path: the response comes from the inner region (or the
outer catch on a throw), `markEscrowComplete` runs twice (inner and outer
finally), and the final lock map is the doubly-deleted one. -/
theorem POST_acquired (env : Env) (locks : ProcessingEscrows.LockMap) (b : Body)
    (hb : env.body = some b) (hv : validateRequestInput b = true)
    (hinit : env.initOk = true)
    (hfree : (ProcessingEscrows.isEscrowProcessing env.now locks b.escrowId).1
      = false) :
    POST env locks =
      ⟨(match (innerRegion env b).1 with
        | .ok r => r
        | .error expVal => outerCatch env b b.escrowId b.escrowTxHash expVal),
       ProcessingEscrows.markEscrowComplete
         (ProcessingEscrows.markEscrowComplete
           (ProcessingEscrows.markEscrowProcessing env.now
             (ProcessingEscrows.isEscrowProcessing env.now locks b.escrowId).2
             b.escrowId) b.escrowId) b.escrowId,
       2, (innerRegion env b).2⟩ := by
  obtain ⟨hne, hnu, htx⟩ := validated_body_facts b hv
  have hne' : (b.escrowId != "") = true := by simp [hne]
  have hnu' : (b.escrowId != "unknown") = true := by simp [hnu]
  have htx' : (b.escrowTxHash != "") = true := by simp [htx]
  unfold POST
  rw [hb]
  simp only [hne', hnu', htx', hv, hinit, hfree, if_true, Bool.true_eq_false,
    if_false, ite_false, ite_true]
  simp

/-- A valid 40-hex-digit user address. -/
def userAddr : String := "0xaaaaaaaaaaaaaaaaaaaaaaaaaaaaaaaaaaaaaaaa"

/-- A valid 64-hex-digit escrow id. -/
def escId : String :=
  "0x1111111111111111111111111111111111111111111111111111111111111111"

/-- A valid 64-hex-digit funding transaction hash. -/
def escTx : String :=
  "0x2222222222222222222222222222222222222222222222222222222222222222"

/-- A request body that passes `validateRequestInput`, with quoteId "q1". -/
def sampleBody : Body := ⟨"hello", userAddr, escTx, escId, "q1"⟩

/-- C7 (amended): every handler run that acquires the processing lock
(valid body, provider initialized, no in-flight processing of the id)
invokes `markEscrowComplete` for the escrow id exactly twice — once in
the inner finally and once in the outer finally — on every terminal path
including thrown exceptions, and the lock map it leaves behind holds no
entry for that id: the deletion is idempotent, so the lock is released
before the handler returns. -/
theorem post_releases_lock (env : Env) (locks : ProcessingEscrows.LockMap)
    (b : Body) (hb : env.body = some b) (hv : validateRequestInput b = true)
    (hinit : env.initOk = true)
    (hfree : (ProcessingEscrows.isEscrowProcessing env.now locks b.escrowId).1
      = false) :
    (POST env locks).completeCalls = 2
    ∧ ProcessingEscrows.hasId (POST env locks).locks b.escrowId = false := by
  rw [POST_acquired env locks b hb hv hinit hfree]
  exact ⟨rfl, ProcessingEscrows.hasId_markEscrowComplete _ _⟩

/-- A run of the handler on an uncontended valid request whose quote
lookup misses (quoteResult none) and whose recovery probe throws. -/
def env7 : Env := { body := some sampleBody }

/-- Closed witness for `post_releases_lock` at the concrete run `env7`. -/
theorem post_releases_lock_witness :
    (POST env7 []).completeCalls = 2
    ∧ ProcessingEscrows.hasId (POST env7 []).locks sampleBody.escrowId
      = false :=
  post_releases_lock env7 [] sampleBody rfl (by decide) rfl (by decide)

/-- C7 counterexample to the claim as stated: this lock-acquiring run
calls `markEscrowComplete` twice, not exactly once — the inner finally
(route.ts 581-584) releases, and the outer finally (route.ts 648-654)
releases again, its `escrowId !== 'unknown'` guard not detecting the
earlier release. -/
theorem post_release_count_counterexample :
    (POST env7 []).completeCalls = 2
    ∧ (POST env7 []).completeCalls ≠ 1 := by
  constructor <;> decide

/-- A run rejected by the duplicate-request guard: another handler holds a
fresh (non-expired) lock for the id; the duplicate's own escrow probe
throws. -/
def env6 : Env := { now := 400000, body := some sampleBody }

/-- The lock map as left by the in-flight first request: its lease on the
sample escrow id, taken at t = 200000 (age 200 s < 5 min at `env6.now`). -/
def locks6 : ProcessingEscrows.LockMap := [(escId, 200000)]

/-- C6: the duplicate-rejected request does NOT leave the in-flight
request's lock entry alone — its outer finally calls
`markEscrowComplete`, deleting the lease the first request still owns
(the lock map goes from one live entry to empty), while answering the
duplicate with a canWithdraw=false error. -/
theorem duplicate_request_deletes_lock :
    (ProcessingEscrows.isEscrowProcessing env6.now locks6 sampleBody.escrowId).1
      = true
    ∧ (POST env6 locks6).response = .err .duplicateProcessing false none none
    ∧ (POST env6 locks6).locks = []
    ∧ (POST env6 locks6).locks ≠ locks6 := by
  refine ⟨by decide, by decide, by decide, by decide⟩

/-- A run whose quote lookup misses (expired/unknown quote) and whose
recovery probe throws — e.g. the RPC endpoint is down, so nothing about
the escrow could be confirmed. -/
def env2 : Env := { body := some sampleBody }

/-- The on-chain record as the probe of `env2b` reads it: existing,
unfulfilled, value 1000, sender = the requesting user. -/
def dExists : EscrowDataJS := ⟨1000, 50, false, userAddr⟩

/-- Like `env2`, but the probe reads succeed and show the funded,
unfulfilled record `dExists`. -/
def env2b : Env :=
  { body := some sampleBody, iqWaitOk := true, iqSec := (.ok dExists, .ok dExists) }

/-- C2: on the expired-quote path the handler answers canWithdraw=false
without any positive confirmation that the escrow is absent or
fulfilled: in `env2` the escrow probe throws (chain unavailable) and the
answer is still canWithdraw=false; in `env2b` the probe succeeds and
shows a funded, unfulfilled record — existence positively confirmed —
and the answer is canWithdraw=false anyway, because the recovery guard
compares the record's value against the constant expectedValue `0n` and
can never find it valid. -/
theorem expired_quote_canwithdraw_false :
    (POST env2 []).response = .err .invalidQuote false none none
    ∧ (POST env2b []).response = .err .invalidQuote false none none := by
  refine ⟨by decide, by decide⟩

/-- The on-chain record as read during `env5`'s run: already fulfilled,
value 1000, sender = the requesting user. -/
def dFulfilled : EscrowDataJS := ⟨1000, 50, true, userAddr⟩

/-- A duplicate orchestration request for work already completed: valid
body, quote still cached at 1000 wei, funding tx confirmed, and both
escrow checks read the already-fulfilled record `dFulfilled`. -/
def env5 : Env :=
  { body := some sampleBody, quoteResult := some 1000,
    initialSec := (.ok dFulfilled, .ok dFulfilled),
    securitySec := (.ok dFulfilled, .ok dFulfilled) }

/-- C5: the already-fulfilled short-circuit of route.ts 476-485 is dead
code — `verifyEscrowSecurity` never returns `valid` for a fulfilled
record (first conjunct), so `initialCheck.valid &&
initialCheck.escrowData?.fulfilled` is unsatisfiable — and a duplicate
request for an already-fulfilled escrow therefore gets an
`AlreadyFulfilled` error response (canWithdraw=true), not the success
response the claim describes. -/
theorem fulfilled_escrow_returns_error_not_success :
    (∀ r1 r2 u v d, (verifyEscrowSecurity r1 r2 u v).valid = true →
        (verifyEscrowSecurity r1 r2 u v).escrowData = some d →
        d.fulfilled = false)
    ∧ (POST env5 []).response
      = .err (.security .alreadyFulfilled) true (some 1000) none := by
  constructor
  · intro r1 r2 u v d hvalid hdata
    unfold verifyEscrowSecurity at hvalid hdata
    cases r1 with
    | error e => simp at hvalid
    | ok dd =>
      by_cases h1 : dd.sender = ZERO_ADDRESS
      · simp [h1] at hvalid
      · by_cases h2 : verifyEscrowSenderOk dd u = false
        · simp [h1, h2] at hvalid
        · by_cases h3 : dd.fulfilled = true
          · simp [h1, h2, h3] at hvalid
          · by_cases h4 : dd.value = 0
            · simp [h1, h2, h3, h4] at hvalid
            · cases r2 with
              | error e2 => simp [h1, h2, h3, h4] at hvalid
              | ok d2 =>
                by_cases h5 : d2.value ≠ v
                · simp [h1, h2, h3, h4, h5] at hvalid
                · simp [h1, h2, h3, h4, h5] at hdata
                  subst hdata
                  exact Bool.not_eq_true _ |>.mp h3
  · decide

theorem verify_value_mismatch (d : EscrowDataJS) (u : String) (p : Nat)
    (hzero : d.sender ≠ ZERO_ADDRESS) (hmatch : toLower d.sender = toLower u)
    (hnf : d.fulfilled = false) (hval : d.value ≠ 0) (hmm : d.value ≠ p) :
    verifyEscrowSecurity (.ok d) (.ok d) u p
      = ⟨false, some d, some .valueMismatch, some d.value⟩ := by
  unfold verifyEscrowSecurity verifyEscrowSenderOk
  simp [hzero, hmatch, hnf, hval, hmm]

/-- C1: a request that reaches security verification against a stable
on-chain record whose value differs from the quoted price p (the record
existing, belonging to the requesting user, unfulfilled and of positive
value, so that verification reaches the step-5 balance check) is answered
with an error response whose canWithdraw is true and which carries both
the expected value p and the actual on-chain value — and the run attempts
no settlement (blob + fulfill) submission at all. -/
theorem value_mismatch_rejected (env : Env) (locks : ProcessingEscrows.LockMap)
    (b : Body) (d : EscrowDataJS) (p : Nat)
    (hb : env.body = some b) (hv : validateRequestInput b = true)
    (hq : b.quoteId ≠ "") (hinit : env.initOk = true)
    (hfree : (ProcessingEscrows.isEscrowProcessing env.now locks b.escrowId).1
      = false)
    (hquote : env.quoteResult = some p) (hw : env.step1Ok = true)
    (h2 : env.initialSec = (.ok d, .ok d)) (h3 : env.securitySec = (.ok d, .ok d))
    (hzero : d.sender ≠ ZERO_ADDRESS)
    (hmatch : toLower d.sender = toLower b.userAddress)
    (hnf : d.fulfilled = false) (hval : d.value ≠ 0) (hmm : d.value ≠ p) :
    (POST env locks).response
      = .err (.security .valueMismatch) true (some p) (some d.value)
    ∧ (POST env locks).blobSubmissions = 0 := by
  have hver := verify_value_mismatch d b.userAddress p hzero hmatch hnf hval hmm
  have hinner : innerRegion env b
      = (.ok (.err (.security .valueMismatch) true (some p) (some d.value)), 0) := by
    unfold innerRegion
    rw [hquote]
    simp [hq, hw, h2, h3, hver, fulfilledOf]
  rw [POST_acquired env locks b hb hv hinit hfree, hinner]
  exact ⟨rfl, rfl⟩

/-- The on-chain record as read during `env1`'s run: funded with 1000 wei
by the requesting user, unfulfilled — while the quote promised 2000 wei. -/
def dMismatch : EscrowDataJS := ⟨1000, 50, false, userAddr⟩

/-- A run quoting 2000 wei against the 1000-wei record `dMismatch`. -/
def env1 : Env :=
  { body := some sampleBody, quoteResult := some 2000,
    initialSec := (.ok dMismatch, .ok dMismatch),
    securitySec := (.ok dMismatch, .ok dMismatch) }

/-- Closed witness for `value_mismatch_rejected`: quoted 2000 wei, escrow
holds 1000 wei. -/
theorem value_mismatch_rejected_witness :
    (POST env1 []).response
      = .err (.security .valueMismatch) true (some 2000) (some 1000)
    ∧ (POST env1 []).blobSubmissions = 0 :=
  value_mismatch_rejected env1 [] sampleBody dMismatch 2000 rfl (by decide)
    (by decide) rfl (by decide) rfl rfl rfl rfl (by decide) rfl rfl
    (by decide) (by decide)

end Orch
